import Mathlib

/-!
Verification development for the calculator MCP server (src/index.ts).

The TypeScript source is shallowly embedded below.  JavaScript numbers are
modelled as exact rationals (ℚ); the spec only relies on values that are
exactly representable, and the code never depends on overflow or NaN.  The
file system is modelled as a partial map from absolute path strings to file
contents, plus a predicate for directories.  JSON values are modelled by an
inductive type; a request body that fails `JSON.parse` is modelled as `none`.
-/

namespace CalcMcp

/-- JSON values as produced by `JSON.parse`.  Objects keep their fields as an
association list; `JSON.parse` never produces duplicate keys, and field
lookup below takes the last binding to match JavaScript object semantics. -/
inductive JsonValue where
  | jnull
  | jbool (b : Bool)
  | jnum (q : ℚ)
  | jstr (s : String)
  | jarr (elems : List JsonValue)
  | jobj (fields : List (String × JsonValue))

/-- Association-list lookup with string keys, used to model JavaScript
property access on a parsed JSON object (first match; callers reverse the
list first so that the last JSON binding wins, as in `JSON.parse`). -/
def lookupField : List (String × JsonValue) → String → Option JsonValue
  | [], _ => none
  | (k, v) :: rest, key => if k = key then some v else lookupField rest key

/-- Property access `obj[key]` on a parsed JSON object: the last binding of
the key wins.  On any non-object value property access yields `undefined`,
modelled as `none`.  (`null` is handled separately by its callers, because
destructuring `null` throws in JavaScript.) -/
def jsProp (v : JsonValue) (key : String) : Option JsonValue :=
  match v with
  | .jobj fields => lookupField fields.reverse key
  | _ => none

/-- Bool test of `listLeads pat text`: does `text` start with `pat`?
This models `String.prototype.startsWith` and is also the building block
for the substring test of `String.prototype.includes`. -/
def listLeads : List Char → List Char → Bool
  | [], _ => true
  | _ :: _, [] => false
  | c :: cs, d :: ds => if c = d then listLeads cs ds else false

/-- Model of `s.startsWith(p)` from JavaScript (also used for the Node
`String.prototype.startsWith` containment check on normalized paths). -/
def strStartsWith (s p : String) : Bool := listLeads p.data s.data

/-- Does `pat` occur as a contiguous run anywhere in the character list? -/
def occursIn (pat : List Char) : List Char → Bool
  | [] => listLeads pat []
  | c :: rest => (listLeads pat (c :: rest)) || occursIn pat rest

/-- Model of `s.includes(pat)` from JavaScript. -/
def strIncludes (s pat : String) : Bool := occursIn pat.data s.data

/-- Model of `s.endsWith(p)` from JavaScript. -/
def strEndsWith (s p : String) : Bool := listLeads p.data.reverse s.data.reverse

/-- Split a character list at a separator character (the semantics of
`String.prototype.split` with a single-character separator). -/
def splitChar (sep : Char) : List Char → List (List Char)
  | [] => [[]]
  | c :: rest =>
      let r := splitChar sep rest
      if c = sep then [] :: r
      else
        match r with
        | [] => [[c]]
        | seg :: segs => (c :: seg) :: segs

/-- The `/`-separated segments of a POSIX path string. -/
def pathSegments (p : String) : List String := (splitChar '/' p.data).map String.mk

/-- One step of POSIX path normalization for absolute paths: empty and `.`
segments are dropped, `..` pops the last kept segment (at the root it is a
no-op, as in `path.posix.normalize` on absolute paths), and any other
segment is kept. -/
def normStep (stack : List String) (seg : String) : List String :=
  if seg = "" ∨ seg = "." then stack
  else if seg = ".." then stack.tail
  else seg :: stack

/-- Join path segments back with `/`. -/
def joinSegs : List String → String
  | [] => ""
  | [s] => s
  | s :: rest => s ++ "/" ++ joinSegs rest

/-- Model of Node `path.normalize` for absolute POSIX paths (the only paths
the server builds: every input is `ASSETS_DIR + "/" + suffix` with
`ASSETS_DIR` absolute).  Trailing-slash preservation is dropped; it can only
matter for directory paths, which the server rejects via `stats.isFile()`. -/
def pathNormalize (p : String) : String :=
  "/" ++ joinSegs (((pathSegments p).foldl normStep []).reverse)

/-- Model of Node `path.join(a, b)`: concatenate with a separator and
normalize, as `path.posix.join` does. -/
def pathJoin (a b : String) : String := pathNormalize (a ++ "/" ++ b)

/-- Decimal digit character for `n < 10`. -/
def digitChar (n : Nat) : Char := Char.ofNat (48 + n)

/-- Decimal digit string of a natural number (fuelled recursion on the
number of digits; 400 digits is far beyond anything the server prints). -/
def natDigits : Nat → Nat → List Char
  | 0, _ => []
  | fuel + 1, n => if n < 10 then [digitChar n] else natDigits fuel (n / 10) ++ [digitChar (n % 10)]

/-- Decimal rendering of a natural number, as JavaScript prints it. -/
def natToString (n : Nat) : String := String.mk (natDigits 400 n)

/-- Decimal rendering of an integer, as JavaScript prints it. -/
def intToString (i : Int) : String :=
  if i < 0 then "-" ++ natToString i.natAbs else natToString i.natAbs

/-- Least `k` such that `q * 10^k` is an integer, found by fuelled search;
for every number a JavaScript double can hold the decimal expansion
terminates well within the fuel. -/
def decScale (q : ℚ) : Nat → Option Nat
  | 0 => none
  | fuel + 1 =>
      if q.den = 1 then some 0
      else (decScale (q * 10) fuel).map (· + 1)

/-- Left-pad a string with zeros to length `k`. -/
def padZeros (s : String) (k : Nat) : String :=
  if s.length < k then String.mk (List.replicate (k - s.length) '0') ++ s else s

/-- Rendering of a number by JavaScript string interpolation, restricted to
the exact-rational model: integers print without a decimal point, and
non-integers print their terminating decimal expansion with no trailing
zeros (for a value with a terminating expansion this agrees with the
shortest round-trip rendering JavaScript uses).  A rational with no
terminating expansion cannot arise from double arithmetic; those fall back
to a fraction rendering. -/
def ratToString (q : ℚ) : String :=
  if q.den = 1 then intToString q.num
  else
    let sign := if q.num < 0 then "-" else ""
    let p := if q.num < 0 then -q else q
    match decScale p 1200 with
    | some k =>
        let m := (p * (10 : ℚ) ^ k).num.natAbs
        sign ++ natToString (m / 10 ^ k) ++ "." ++ padZeros (natToString (m % 10 ^ k)) k
    | none => sign ++ intToString p.num ++ "/" ++ natToString p.den

/-- Ambient configuration of the running server: the `WIDGET_DOMAIN`
environment variable (absent, or present with some string value), the
resolved `ASSETS_DIR`, and the file system.  `fs p = some c` means an
existing regular file at path `p` with contents `c`; `dirs p` means an
existing directory at `p`.  `fs.existsSync` is true when either holds. -/
structure Ctx where
  widgetDomainEnv : Option String
  assetsDir : String
  fs : String → Option String
  dirs : String → Bool

/-- Model of `fs.existsSync`. -/
def existsSync (ctx : Ctx) (p : String) : Bool := (ctx.fs p).isSome || ctx.dirs p

/-- The widget domain: `process.env.WIDGET_DOMAIN || "https://calculate-sum.zeabur.app"`.
JavaScript `||` falls through on the empty string, which is falsy. -/
def widgetDomainValue (ctx : Ctx) : String :=
  match ctx.widgetDomainEnv with
  | some d => if d = "" then "https://calculate-sum.zeabur.app" else d
  | none => "https://calculate-sum.zeabur.app"

/-- Leading literal of the generated fallback widget HTML (the template text
of `readWidgetHtml` up to the first interpolation). -/
def fallbackHtmlOpen : String :=
  "<!DOCTYPE html>\n<html>\n<head>\n  <meta charset=\"UTF-8\">\n  <meta name=\"viewport\" content=\"width=device-width, initial-scale=1.0\">\n  <style>\n    * \x7b margin: 0; padding: 0; box-sizing: border-box; \x7d\n    body \x7b font-family: -apple-system, BlinkMacSystemFont, sans-serif; \x7d\n  </style>\n</head>\n<body>\n  <div id=\""

/-- The fallback HTML shell generated by `readWidgetHtml` when the widget
HTML file does not exist on disk. -/
def fallbackHtml (domain widgetName : String) : String :=
  fallbackHtmlOpen ++ widgetName ++ "-root\"></div>\n  <script type=\"module\" src=\"" ++
    domain ++ "/assets/" ++ widgetName ++ ".js\"></script>\n</body>\n</html>"

/-- The thrown error of a failed `fs.readFileSync`: the path passed the
`existsSync` check but holds no regular file (a directory there raises
EISDIR). -/
inductive ReadFileError where
  | readFailed (path : String)
deriving DecidableEq

/-- Model of `readWidgetHtml`: when `ASSETS_DIR/<widgetName>.html` exists
it is read with `readFileSync` — which throws when the existing path is not
a regular file — and otherwise the fallback shell for the configured
domain is generated. -/
def readWidgetHtml (ctx : Ctx) (widgetName : String) : Except ReadFileError String :=
  let htmlPath := pathJoin ctx.assetsDir (widgetName ++ ".html")
  if existsSync ctx htmlPath then
    match ctx.fs htmlPath with
    | some content => .ok content
    | none => .error (.readFailed htmlPath)
  else
    .ok (fallbackHtml (widgetDomainValue ctx) widgetName)

/-- The html stored in a widget record at registry construction.  A read
that throws at module load crashes the process before any server exists,
so no running server ever observes the error branch; `widgetsInit` below is
the faithful fallible constructor, and `widgetsInit_ok` identifies its
successful result with the total registry used throughout. -/
def widgetHtmlInit (ctx : Ctx) (widgetName : String) : String :=
  match readWidgetHtml ctx widgetName with
  | .ok content => content
  | .error _ => ""

/-- The `CalculatorWidget` record of src/index.ts. -/
structure Widget where
  id : String
  title : String
  templateUri : String
  invoking : String
  invoked : String
  html : String
  responseText : String
deriving DecidableEq

/-- Descriptor metadata built by `widgetDescriptorMeta`: output template,
invocation status strings, accessibility flag, widget domain, CSP allow
lists and the border preference. -/
structure WidgetMeta where
  outputTemplate : String
  invoking : String
  invoked : String
  widgetAccessible : Bool
  widgetDomain : String
  cspConnectDomains : List String
  cspResourceDomains : List String
  prefersBorder : Bool
deriving DecidableEq

/-- Model of `widgetDescriptorMeta`. -/
def widgetDescriptorMeta (ctx : Ctx) (widget : Widget) : WidgetMeta :=
  let widgetDomain := widgetDomainValue ctx
  { outputTemplate := widget.templateUri
    invoking := widget.invoking
    invoked := widget.invoked
    widgetAccessible := true
    widgetDomain := widgetDomain
    cspConnectDomains := [widgetDomain]
    cspResourceDomains := [widgetDomain]
    prefersBorder := true }

/-- The `_meta` attached to tool invocation responses (`widgetInvocationMeta`). -/
structure InvocationMeta where
  invoking : String
  invoked : String
deriving DecidableEq

/-- Model of `widgetInvocationMeta`. -/
def widgetInvocationMeta (widget : Widget) : InvocationMeta :=
  { invoking := widget.invoking, invoked := widget.invoked }

/-- The fixed widget list of src/index.ts, with each `html` read from the
file system at registry-construction time. -/
def widgets (ctx : Ctx) : List Widget :=
  [ { id := "add", title := "Addition Calculator",
      templateUri := "ui://widget/add.html",
      invoking := "Opening addition calculator...",
      invoked := "Addition calculator ready",
      html := widgetHtmlInit ctx "add",
      responseText := "Addition calculator rendered!" },
    { id := "subtract", title := "Subtraction Calculator",
      templateUri := "ui://widget/subtract.html",
      invoking := "Opening subtraction calculator...",
      invoked := "Subtraction calculator ready",
      html := widgetHtmlInit ctx "subtract",
      responseText := "Subtraction calculator rendered!" },
    { id := "multiply", title := "Multiplication Calculator",
      templateUri := "ui://widget/multiply.html",
      invoking := "Opening multiplication calculator...",
      invoked := "Multiplication calculator ready",
      html := widgetHtmlInit ctx "multiply",
      responseText := "Multiplication calculator rendered!" },
    { id := "divide", title := "Division Calculator",
      templateUri := "ui://widget/divide.html",
      invoking := "Opening division calculator...",
      invoked := "Division calculator ready",
      html := widgetHtmlInit ctx "divide",
      responseText := "Division calculator rendered!" },
    { id := "super-calculator", title := "Super Calculator",
      templateUri := "ui://widget/super-calculator.html",
      invoking := "Opening super calculator...",
      invoked := "Super calculator ready",
      html := widgetHtmlInit ctx "super-calculator",
      responseText := "Super calculator rendered!" } ]

/-- Lookup in the `widgetsById` map.  The map is filled from `widgets` in
order; ids are unique, so first match on the list is the map lookup.  The
map stores the registry objects themselves, so lookups are performed on the
current registry state. -/
def widgetsById : List Widget → String → Option Widget
  | [], _ => none
  | w :: ws, n => if w.id = n then some w else widgetsById ws n

/-- Lookup in the `widgetsByUri` map, keyed by `templateUri`. -/
def widgetsByUri : List Widget → String → Option Widget
  | [], _ => none
  | w :: ws, uri => if w.templateUri = uri then some w else widgetsByUri ws uri

/-- The faithful registry constructor: module load evaluates the five
`readWidgetHtml` calls in order, and the first thrown read error aborts the
load (the process crashes before any server exists).  `widgetsInit_ok`
below shows that on every successful start this agrees with the total
registry `widgets`. -/
def widgetsInit (ctx : Ctx) : Except ReadFileError (List Widget) :=
  match readWidgetHtml ctx "add" with
  | .error e => .error e
  | .ok addHtml =>
    match readWidgetHtml ctx "subtract" with
    | .error e => .error e
    | .ok subtractHtml =>
      match readWidgetHtml ctx "multiply" with
      | .error e => .error e
      | .ok multiplyHtml =>
        match readWidgetHtml ctx "divide" with
        | .error e => .error e
        | .ok divideHtml =>
          match readWidgetHtml ctx "super-calculator" with
          | .error e => .error e
          | .ok superHtml =>
              .ok ((widgets ctx).map fun w =>
                { w with html :=
                    if w.id = "add" then addHtml
                    else if w.id = "subtract" then subtractHtml
                    else if w.id = "multiply" then multiplyHtml
                    else if w.id = "divide" then divideHtml
                    else superHtml })

/-- A property of a declared JSON-schema object: name, type, and for string
properties an optional enum of allowed values. -/
structure SchemaProp where
  name : String
  ty : String
  enum : List String
deriving DecidableEq

/-- The advertised JSON input schema of a tool. -/
structure InputSchema where
  properties : List SchemaProp
  required : List String
  additionalProperties : Bool
deriving DecidableEq

/-- Model of `basicToolInputSchema`. -/
def basicToolInputSchema : InputSchema :=
  { properties := [⟨"a", "number", []⟩, ⟨"b", "number", []⟩]
    required := ["a", "b"]
    additionalProperties := false }

/-- Model of `superCalculatorInputSchema`. -/
def superCalculatorInputSchema : InputSchema :=
  { properties := [⟨"a", "number", []⟩, ⟨"b", "number", []⟩,
                   ⟨"operation", "string", ["add", "subtract", "multiply", "divide"]⟩]
    required := ["a", "b", "operation"]
    additionalProperties := false }

/-- Parsed arguments of the basic tools (`z.object({a: z.number(), b: z.number()})`). -/
structure BasicArgs where
  a : ℚ
  b : ℚ

/-- The four operations of the super-calculator enum. -/
inductive Op where
  | add
  | subtract
  | multiply
  | divide
deriving DecidableEq

/-- The string of an operation, as it appears in the zod enum and in the
structured response payload. -/
def opName : Op → String
  | .add => "add"
  | .subtract => "subtract"
  | .multiply => "multiply"
  | .divide => "divide"

/-- Parse a string against `z.enum(["add", "subtract", "multiply", "divide"])`. -/
def parseOp : String → Option Op
  | "add" => some .add
  | "subtract" => some .subtract
  | "multiply" => some .multiply
  | "divide" => some .divide
  | _ => none

/-- Parsed arguments of the super-calculator. -/
structure SuperArgs where
  a : ℚ
  b : ℚ
  operation : Op

/-- Model of `basicToolInputParser.parse`: the input must be a JSON object
whose fields `a` and `b` are numbers; unknown fields are stripped; anything
else is a zod parse failure (`none`). -/
def basicToolInputParser (v : JsonValue) : Option BasicArgs :=
  match v with
  | .jobj fields =>
      match lookupField fields.reverse "a", lookupField fields.reverse "b" with
      | some (.jnum a), some (.jnum b) => some ⟨a, b⟩
      | _, _ => none
  | _ => none

/-- Model of `superCalculatorInputParser.parse`: numbers `a` and `b` plus an
`operation` drawn from the four-value enum. -/
def superCalculatorInputParser (v : JsonValue) : Option SuperArgs :=
  match v with
  | .jobj fields =>
      match lookupField fields.reverse "a", lookupField fields.reverse "b",
            lookupField fields.reverse "operation" with
      | some (.jnum a), some (.jnum b), some (.jstr s) =>
          (parseOp s).map fun op => ⟨a, b, op⟩
      | _, _, _ => none
  | _ => none

/-- An entry of the `tools` list. -/
structure ToolEntry where
  name : String
  description : String
  inputSchema : InputSchema
  title : String
  meta : WidgetMeta
deriving DecidableEq

/-- An entry of the `resources` list. -/
structure ResourceEntry where
  uri : String
  name : String
  description : String
  mimeType : String
  meta : WidgetMeta
deriving DecidableEq

/-- An entry of the `resourceTemplates` list. -/
structure TemplateEntry where
  uriTemplate : String
  name : String
  description : String
  mimeType : String
  meta : WidgetMeta
deriving DecidableEq

/-- Lower-case a string (`String.prototype.toLowerCase` on the ASCII titles
used here). -/
def strToLower (s : String) : String := String.mk (s.data.map Char.toLower)

/-- The Tool entry derived from one widget (the `widgets.map` body building
`tools`). -/
def toolEntryOf (ctx : Ctx) (widget : Widget) : ToolEntry :=
  { name := widget.id
    description :=
      if widget.id = "super-calculator" then
        "A super calculator that can perform addition, subtraction, multiplication, and division operations"
      else
        "Performs " ++ strToLower widget.title ++ " and shows a calculator UI"
    inputSchema :=
      if widget.id = "super-calculator" then superCalculatorInputSchema
      else basicToolInputSchema
    title := widget.title
    meta := widgetDescriptorMeta ctx widget }

/-- The Resource entry derived from one widget (the `widgets.map` body
building `resources`). -/
def resourceEntryOf (ctx : Ctx) (widget : Widget) : ResourceEntry :=
  { uri := widget.templateUri
    name := widget.title
    description := widget.title ++ " widget markup"
    mimeType := "text/html+skybridge"
    meta := widgetDescriptorMeta ctx widget }

/-- The ResourceTemplate entry derived from one widget (the `widgets.map`
body building `resourceTemplates`). -/
def templateEntryOf (ctx : Ctx) (widget : Widget) : TemplateEntry :=
  { uriTemplate := widget.templateUri
    name := widget.title
    description := widget.title ++ " widget markup"
    mimeType := "text/html+skybridge"
    meta := widgetDescriptorMeta ctx widget }

/-- The `tools` list exposed by ListTools. -/
def tools (ctx : Ctx) : List ToolEntry := (widgets ctx).map (toolEntryOf ctx)

/-- The `resources` list exposed by ListResources. -/
def resources (ctx : Ctx) : List ResourceEntry := (widgets ctx).map (resourceEntryOf ctx)

/-- The `resourceTemplates` list exposed by ListResourceTemplates. -/
def resourceTemplates (ctx : Ctx) : List TemplateEntry :=
  (widgets ctx).map (templateEntryOf ctx)

/-- Failures of the CallTool handler: the thrown `Unknown tool: <name>`
error, a zod parse failure (surfaced by the protocol layer as an
invalid-arguments error), the thrown `Cannot divide by zero`, and the
defensive `Unknown operation` default branch. -/
inductive ToolCallError where
  | unknownTool (name : String)
  | invalidArguments
  | divideByZero
  | unknownOperation (op : String)
deriving DecidableEq

/-- A successful CallTool response: one text content item, the structured
payload as an ordered field list, and the invocation metadata. -/
structure ToolCallResult where
  content : List (String × String)
  structuredContent : List (String × JsonValue)
  meta : InvocationMeta

/-- The `switch (parsedArgs.operation)` of the super-calculator branch of
the CallTool handler, computing the local variables `result` and
`operationText`.  The `b == 0` guard is checked before the division. -/
def superCalcCompute (a b : ℚ) : Op → Except ToolCallError (ℚ × String)
  | .add => .ok (a + b, "sum of " ++ ratToString a ++ " and " ++ ratToString b)
  | .subtract => .ok (a - b, "difference of " ++ ratToString a ++ " and " ++ ratToString b)
  | .multiply => .ok (a * b, "product of " ++ ratToString a ++ " and " ++ ratToString b)
  | .divide =>
      if b = 0 then .error .divideByZero
      else .ok (a / b, "quotient of " ++ ratToString a ++ " and " ++ ratToString b)

/-- The `switch (widget.id)` of the basic-tool branch of the CallTool
handler, computing `result` and `operationText`; the default branch throws
`Unknown operation`. -/
def basicCompute (id : String) (a b : ℚ) : Except ToolCallError (ℚ × String) :=
  match id with
  | "add" => .ok (a + b, "sum of " ++ ratToString a ++ " and " ++ ratToString b)
  | "subtract" => .ok (a - b, "difference of " ++ ratToString a ++ " and " ++ ratToString b)
  | "multiply" => .ok (a * b, "product of " ++ ratToString a ++ " and " ++ ratToString b)
  | "divide" =>
      if b = 0 then .error .divideByZero
      else .ok (a / b, "quotient of " ++ ratToString a ++ " and " ++ ratToString b)
  | _ => .error (.unknownOperation id)

/-- Model of the CallTool request handler.  The registry is looked up by
id; missing arguments default to `{}`; the super-calculator parses with the
enum schema and adds an `operation` field to the structured payload, the
basic tools parse with the two-number schema. -/
def callTool (registry : List Widget) (name : String) (args : Option JsonValue) :
    Except ToolCallError ToolCallResult :=
  match widgetsById registry name with
  | none => .error (.unknownTool name)
  | some widget =>
      if widget.id = "super-calculator" then
        match superCalculatorInputParser (args.getD (.jobj [])) with
        | none => .error .invalidArguments
        | some parsedArgs =>
            match superCalcCompute parsedArgs.a parsedArgs.b parsedArgs.operation with
            | .error e => .error e
            | .ok (result, operationText) =>
                .ok { content := [("text",
                        "The " ++ operationText ++ " is " ++ ratToString result ++ ". " ++
                          widget.responseText)]
                      structuredContent :=
                        [("a", .jnum parsedArgs.a), ("b", .jnum parsedArgs.b),
                         ("operation", .jstr (opName parsedArgs.operation)),
                         ("result", .jnum result)]
                      meta := widgetInvocationMeta widget }
      else
        match basicToolInputParser (args.getD (.jobj [])) with
        | none => .error .invalidArguments
        | some parsedArgs =>
            match basicCompute widget.id parsedArgs.a parsedArgs.b with
            | .error e => .error e
            | .ok (result, operationText) =>
                .ok { content := [("text",
                        "The " ++ operationText ++ " is " ++ ratToString result ++ ". " ++
                          widget.responseText)]
                      structuredContent :=
                        [("a", .jnum parsedArgs.a), ("b", .jnum parsedArgs.b),
                         ("result", .jnum result)]
                      meta := widgetInvocationMeta widget }

/-- Failures of the ReadResource handler: the thrown
`Unknown resource: <uri>`, or a `readFileSync` error thrown out of the
`readWidgetHtml` call and propagated to the caller. -/
inductive ResourceError where
  | unknownResource (uri : String)
  | htmlReadFailed (e : ReadFileError)
deriving DecidableEq

/-- One entry of a ReadResource response. -/
structure ResourceContent where
  uri : String
  mimeType : String
  text : String
  meta : WidgetMeta

/-- Model of the ReadResource handler.  On a hit it re-reads the widget
HTML from disk; when the read throws, the error propagates before the
assignment, leaving every record untouched.  When it succeeds, the result
is assigned to the widget record (`widget.html = ...` — the registry
objects are shared, so the update is visible in the registry) and a single
content entry is returned.  The registry afterwards is the second
component; on a miss it is untouched. -/
def readResource (ctx : Ctx) (registry : List Widget) (uri : String) :
    Except ResourceError (List ResourceContent) × List Widget :=
  match widgetsByUri registry uri with
  | none => (.error (.unknownResource uri), registry)
  | some widget =>
      match readWidgetHtml ctx widget.id with
      | .error e => (.error (.htmlReadFailed e), registry)
      | .ok newHtml =>
          (.ok [{ uri := widget.templateUri
                  mimeType := "text/html+skybridge"
                  text := newHtml
                  meta := widgetDescriptorMeta ctx { widget with html := newHtml } }],
           registry.map fun x =>
             if x.templateUri = uri then { x with html := newHtml } else x)

/-- The five MCP requests served by the protocol server. -/
inductive ProtocolRequest where
  | listToolsReq
  | listResourcesReq
  | listResourceTemplatesReq
  | readResourceReq (uri : String)
  | callToolReq (name : String) (args : Option JsonValue)

/-- The response of one protocol request. -/
inductive ProtocolOutput where
  | toolsOut (entries : List ToolEntry)
  | resourcesOut (entries : List ResourceEntry)
  | templatesOut (entries : List TemplateEntry)
  | readOut (r : Except ResourceError (List ResourceContent))
  | callOut (r : Except ToolCallError ToolCallResult)

/-- One protocol request against the current registry state: the response
together with the registry state afterwards.  Only ReadResource writes to a
widget record; the listing handlers return the catalogs precomputed at
startup, and CallTool only reads the registry. -/
def runOp (ctx : Ctx) (registry : List Widget) :
    ProtocolRequest → ProtocolOutput × List Widget
  | .listToolsReq => (.toolsOut (tools ctx), registry)
  | .listResourcesReq => (.resourcesOut (resources ctx), registry)
  | .listResourceTemplatesReq => (.templatesOut (resourceTemplates ctx), registry)
  | .readResourceReq uri =>
      let r := readResource ctx registry uri
      (.readOut r.1, r.2)
  | .callToolReq name args => (.callOut (callTool registry name args), registry)

/-- A session table entry: the per-session protocol server instance and the
SSE transport, both abstracted as opaque handles. -/
structure SessionRecord where
  server : Nat
  transport : Nat
deriving DecidableEq

/-- Lookup in the `sessions` map (keys are the transport-generated session
ids, which are unique). -/
def lookupSession : List (String × SessionRecord) → String → Option SessionRecord
  | [], _ => none
  | (k, rec) :: rest, sid => if k = sid then some rec else lookupSession rest sid

/-- The observable outcome of `handlePostMessage`: the 400 response for a
missing session id, the 404 response for an unknown session, or delegation
of the message to the transport of the matched session. -/
inductive PostResponse where
  | missingSessionId
  | unknownSession
  | forwarded (transport : Nat)
deriving DecidableEq

/-- Model of `handlePostMessage`.  The `sessionId` argument is the result of
`url.searchParams.get("sessionId")`: `none` when the query parameter is
absent.  The code tests `if (!sessionId)`, which is also true for the empty
string, before any table access.  The returned table is the session table
afterwards: no branch modifies it. -/
def handlePostMessage (table : List (String × SessionRecord)) (sessionId : Option String) :
    PostResponse × List (String × SessionRecord) :=
  match sessionId with
  | none => (.missingSessionId, table)
  | some sid =>
      if sid = "" then (.missingSessionId, table)
      else
        match lookupSession table sid with
        | none => (.unknownSession, table)
        | some session => (.forwarded session.transport, table)

/-- An HTTP response of the `/calculate` endpoint: status code and the JSON
object body passed to `JSON.stringify`. -/
structure CalcResponse where
  status : Nat
  body : List (String × JsonValue)

/-- Model of `handleCalculateApi`.  The input is the result of
`JSON.parse(body)` (`none` when parsing throws).  Destructuring
`const { a, b } = null` throws a TypeError, which the surrounding catch
treats like a parse failure; any other non-object yields `undefined` fields.
The `typeof` checks then gate the 200 response with `a + b`. -/
def handleCalculateApi (parsed : Option JsonValue) : CalcResponse :=
  match parsed with
  | none => ⟨400, [("error", .jstr "Invalid JSON")]⟩
  | some .jnull => ⟨400, [("error", .jstr "Invalid JSON")]⟩
  | some v =>
      match jsProp v "a", jsProp v "b" with
      | some (.jnum a), some (.jnum b) => ⟨200, [("result", .jnum (a + b))]⟩
      | _, _ => ⟨400, [("error", .jstr "Invalid inputs")]⟩

/-- Content type inferred from the file extension in the static-asset
branch of the dispatcher. -/
def contentTypeFor (fileName : String) : String :=
  if strEndsWith fileName ".js" then "application/javascript"
  else if strEndsWith fileName ".css" then "text/css"
  else if strEndsWith fileName ".html" then "text/html"
  else "application/octet-stream"

/-- The outcome of a `GET /assets/<fileName>` request: the file at
`fullPath` is streamed with the given content type, the response is a 404
(either the `File not found` body of `serveStaticFile` or the dispatcher
fall-through to `Not Found`), or the read stream errors because the path is
a directory. -/
inductive AssetResponse where
  | served (fullPath : String) (content : String) (contentType : String)
  | notFound
  | pipeFailed (fullPath : String)
deriving DecidableEq

/-- Model of `serveStaticFile`: re-join the file name to the assets root,
404 when nothing exists there, otherwise stream the file. -/
def serveStaticFile (ctx : Ctx) (fileName contentType : String) : AssetResponse :=
  let fullPath := pathJoin ctx.assetsDir fileName
  if existsSync ctx fullPath then
    match ctx.fs fullPath with
    | some content => .served fullPath content contentType
    | none => .pipeFailed fullPath
  else .notFound

/-- Model of the static-asset branch of the HTTP dispatcher for
`GET /assets/<fileName>` (the pathname with the `/assets/` prefix removed).
An empty name or one containing `..` is rejected; otherwise the joined path
is normalized and must remain strictly within `ASSETS_DIR` and point at an
existing regular file before `serveStaticFile` runs.  Every rejected case
falls through to a 404 response. -/
def handleAssetPath (ctx : Ctx) (fileName : String) : AssetResponse :=
  if fileName ≠ "" ∧ strIncludes fileName ".." = false then
    let fullPath := pathJoin ctx.assetsDir fileName
    let normalizedPath := pathNormalize fullPath
    let normalizedAssetsDir := pathNormalize ctx.assetsDir
    if strStartsWith normalizedPath (normalizedAssetsDir ++ "/") = true ∧
        existsSync ctx normalizedPath = true ∧ (ctx.fs normalizedPath).isSome = true then
      serveStaticFile ctx fileName (contentTypeFor fileName)
    else .notFound
  else .notFound

/-- The `typeof x === "number"` test composed with property access, as used
by `handleCalculateApi` on the parsed body. -/
def numProp (v : JsonValue) (key : String) : Option ℚ :=
  match jsProp v key with
  | some (.jnum q) => some q
  | _ => none

/-- Erase the one mutable field of a widget record, for stating frame
properties about the others. -/
def stripHtml (w : Widget) : Widget := { w with html := "" }

/-- A concrete deployment context with an empty assets directory (every
widget HTML file missing, so the registry holds generated fallbacks). -/
def ctx0 : Ctx :=
  { widgetDomainEnv := none
    assetsDir := "/srv/assets"
    fs := fun _ => none
    dirs := fun _ => false }

/-- A concrete deployment context whose assets directory holds one built
bundle `app.js`. -/
def ctxAssets : Ctx :=
  { ctx0 with fs := fun p => if p = "/srv/assets/app.js" then some "JS" else none }

/-- The context after `add.html` is written to disk (contents `"X"`) while
the server keeps running: same configuration as `ctx0`, updated files. -/
def ctxAddX : Ctx :=
  { ctx0 with fs := fun p => if p = "/srv/assets/add.html" then some "X" else none }

/-- The context after an empty `add.html` is written to disk: the file
exists, `readFileSync` returns the empty string. -/
def ctxAddEmpty : Ctx :=
  { ctx0 with fs := fun p => if p = "/srv/assets/add.html" then some "" else none }

/-- The context where a directory sits at the `add.html` path: `existsSync`
is true there but no regular file can be read (EISDIR). -/
def ctxAddDir : Ctx :=
  { ctx0 with dirs := fun p => p == "/srv/assets/add.html" }

/-- The registry record of the `add` widget under `ctx0`, as produced by
registry construction. -/
def widgetAdd0 : Widget :=
  { id := "add", title := "Addition Calculator",
    templateUri := "ui://widget/add.html",
    invoking := "Opening addition calculator...",
    invoked := "Addition calculator ready",
    html := widgetHtmlInit ctx0 "add",
    responseText := "Addition calculator rendered!" }

set_option maxRecDepth 8192 in
/-- The generated fallback HTML shell is never the empty string: it starts
with a fixed non-empty document preamble. -/
theorem fallbackHtml_ne_empty (domain widgetName : String) :
    fallbackHtml domain widgetName ≠ "" := by
  intro h
  have hl := congrArg String.length h
  rw [fallbackHtml] at hl
  simp only [String.length_append] at hl
  have hopen : 0 < fallbackHtmlOpen.length := by decide
  simp at hl
  omega

/-- A successful `readWidgetHtml` yields the empty string only when the
on-disk html file itself is present and empty: the generated shell is
non-empty, and otherwise the payload is the file contents. -/
theorem readWidgetHtml_ok_ne_empty (ctx : Ctx) (widgetName h : String)
    (hr : readWidgetHtml ctx widgetName = .ok h)
    (hne : ctx.fs (pathJoin ctx.assetsDir (widgetName ++ ".html")) ≠ some "") :
    h ≠ "" := by
  intro hblank
  subst hblank
  simp only [readWidgetHtml] at hr
  by_cases hex : existsSync ctx (pathJoin ctx.assetsDir (widgetName ++ ".html")) = true
  · rw [if_pos hex] at hr
    cases hf : ctx.fs (pathJoin ctx.assetsDir (widgetName ++ ".html")) with
    | none => rw [hf] at hr; exact Except.noConfusion hr
    | some content =>
        rw [hf] at hr
        injection hr with hr
        rw [hr] at hf
        exact hne hf
  · rw [if_neg hex] at hr
    injection hr with hr
    exact fallbackHtml_ne_empty _ _ hr

/-- On every start that does not crash, the faithful fallible constructor
produces exactly the total registry `widgets`: when all five reads succeed,
each stored html is the read result. -/
theorem widgetsInit_ok (ctx : Ctx) (a1 a2 a3 a4 a5 : String)
    (h1 : readWidgetHtml ctx "add" = .ok a1)
    (h2 : readWidgetHtml ctx "subtract" = .ok a2)
    (h3 : readWidgetHtml ctx "multiply" = .ok a3)
    (h4 : readWidgetHtml ctx "divide" = .ok a4)
    (h5 : readWidgetHtml ctx "super-calculator" = .ok a5) :
    widgetsInit ctx = .ok (widgets ctx) := by
  simp [widgetsInit, widgets, widgetHtmlInit, h1, h2, h3, h4, h5]

/-- Replacing the html of matched widgets does not change any other field:
the `stripHtml` projection of the registry is preserved. -/
theorem map_stripHtml_update (uri newHtml : String) (l : List Widget) :
    ((l.map fun x => if x.templateUri = uri then { x with html := newHtml } else x).map
        stripHtml) = l.map stripHtml := by
  induction l with
  | nil => rfl
  | cons w ws ih =>
      by_cases h : w.templateUri = uri <;> simp [h, stripHtml, ih]

/-- C2: CallTool on the `divide` widget and on the super-calculator with
operation `divide`, with `b = 0`, fails with the divide-by-zero error for
every `a`; the compute step itself yields the error (the `b == 0` guard
runs before the division), so no numeric result — in particular no
Infinity/NaN — is ever produced for these inputs. -/
theorem claim_C2 (ctx : Ctx) (a : ℚ) :
    callTool (widgets ctx) "divide"
        (some (.jobj [("a", .jnum a), ("b", .jnum 0)])) = .error .divideByZero ∧
    callTool (widgets ctx) "super-calculator"
        (some (.jobj [("a", .jnum a), ("b", .jnum 0), ("operation", .jstr "divide")])) =
      .error .divideByZero ∧
    basicCompute "divide" a 0 = .error .divideByZero ∧
    superCalcCompute a 0 .divide = .error .divideByZero :=
  ⟨rfl, rfl, rfl, rfl⟩

/-- C3: CallTool on `add`, `subtract` and `multiply` returns the exact
arithmetic result in a structured payload carrying `a`, `b` and `result`;
the super-calculator on `{a: 10, b: 4, operation: "divide"}` returns the
structured payload with the extra `operation` field and `result = 5/2`
(that is, 2.5), and its text summary contains "quotient of 10 and 4". -/
theorem claim_C3 (ctx : Ctx) (a b : ℚ) :
    (∃ r, callTool (widgets ctx) "add"
        (some (.jobj [("a", .jnum a), ("b", .jnum b)])) = .ok r ∧
      r.structuredContent = [("a", .jnum a), ("b", .jnum b), ("result", .jnum (a + b))]) ∧
    (∃ r, callTool (widgets ctx) "subtract"
        (some (.jobj [("a", .jnum a), ("b", .jnum b)])) = .ok r ∧
      r.structuredContent = [("a", .jnum a), ("b", .jnum b), ("result", .jnum (a - b))]) ∧
    (∃ r, callTool (widgets ctx) "multiply"
        (some (.jobj [("a", .jnum a), ("b", .jnum b)])) = .ok r ∧
      r.structuredContent = [("a", .jnum a), ("b", .jnum b), ("result", .jnum (a * b))]) ∧
    (∃ r, callTool (widgets ctx) "super-calculator"
        (some (.jobj [("a", .jnum 10), ("b", .jnum 4), ("operation", .jstr "divide")])) =
        .ok r ∧
      r.structuredContent =
        [("a", .jnum 10), ("b", .jnum 4), ("operation", .jstr "divide"),
         ("result", .jnum (5 / 2 : ℚ))] ∧
      r.content = [("text", "The quotient of 10 and 4 is 2.5. Super calculator rendered!")] ∧
      strIncludes "The quotient of 10 and 4 is 2.5. Super calculator rendered!"
        "quotient of 10 and 4" = true) :=
  ⟨⟨_, rfl, rfl⟩, ⟨_, rfl, rfl⟩, ⟨_, rfl, rfl⟩,
   ⟨_, rfl, by with_unfolding_all rfl, by with_unfolding_all rfl, by decide⟩⟩

/-- C7: the descriptor metadata attached to the Tool, Resource and
ResourceTemplate entries of the same widget is the same `widgetDescriptorMeta`
record, both entry-wise and across the three derived catalog lists. -/
theorem claim_C7 (ctx : Ctx) (widget : Widget) :
    (toolEntryOf ctx widget).meta = widgetDescriptorMeta ctx widget ∧
    (resourceEntryOf ctx widget).meta = widgetDescriptorMeta ctx widget ∧
    (templateEntryOf ctx widget).meta = widgetDescriptorMeta ctx widget ∧
    (tools ctx).map ToolEntry.meta = (widgets ctx).map (widgetDescriptorMeta ctx) ∧
    (resources ctx).map ResourceEntry.meta = (widgets ctx).map (widgetDescriptorMeta ctx) ∧
    (resourceTemplates ctx).map TemplateEntry.meta =
      (widgets ctx).map (widgetDescriptorMeta ctx) :=
  ⟨rfl, rfl, rfl, rfl, rfl, rfl⟩

/-- C1 counterexample: with `?sessionId=` the query parameter is present
with the empty-string value, which is no key of the session table; the
claim then requires the UnknownSession (404) outcome, but the handler tests
`if (!sessionId)` — true for the empty string — and answers with the
MissingSessionId (400) response instead. -/
theorem claim_C1_cex :
    handlePostMessage [] (some "") ≠
      (.unknownSession, ([] : List (String × SessionRecord))) ∧
    handlePostMessage [] (some "") =
      (.missingSessionId, ([] : List (String × SessionRecord))) := by
  exact ⟨by decide, rfl⟩

/-- C1 (amended): a POST to the message path never modifies the session
table; when the sessionId query parameter is absent — or present with the
empty-string value, which the falsiness test treats the same way — the
request fails with MissingSessionId (400); when it is present, non-empty
and not a key of the table the request fails with UnknownSession (404) and
no session is created; only on a table hit is the message forwarded to the
transport of the matched session. -/
theorem claim_C1 (table : List (String × SessionRecord)) (sessionId : Option String) :
    ((handlePostMessage table sessionId).2 = table) ∧
    (sessionId = none ∨ sessionId = some "" →
      handlePostMessage table sessionId = (.missingSessionId, table)) ∧
    (∀ sid, sessionId = some sid → sid ≠ "" → lookupSession table sid = none →
      handlePostMessage table sessionId = (.unknownSession, table)) ∧
    (∀ sid rec, sessionId = some sid → sid ≠ "" → lookupSession table sid = some rec →
      handlePostMessage table sessionId = (.forwarded rec.transport, table)) := by
  refine ⟨?_, ?_, ?_, ?_⟩
  · cases sessionId with
    | none => rfl
    | some sid =>
        by_cases h : sid = ""
        · simp only [handlePostMessage, if_pos h]
        · simp only [handlePostMessage, if_neg h]
          cases lookupSession table sid <;> rfl
  · rintro (rfl | rfl)
    · rfl
    · rfl
  · rintro sid rfl hne hmiss
    simp only [handlePostMessage, if_neg hne, hmiss]
  · rintro sid rec rfl hne hhit
    simp only [handlePostMessage, if_neg hne, hhit]

/-- C1 witness: the three outcomes at concrete inputs — missing parameter,
unknown non-empty id on a one-session table, and a hit forwarding to the
transport of the stored session. -/
theorem claim_C1_witness :
    handlePostMessage [("abc", ⟨7, 9⟩)] none =
      (.missingSessionId, [("abc", ⟨7, 9⟩)]) ∧
    handlePostMessage [("abc", ⟨7, 9⟩)] (some "zzz") =
      (.unknownSession, [("abc", ⟨7, 9⟩)]) ∧
    handlePostMessage [("abc", ⟨7, 9⟩)] (some "abc") =
      (.forwarded 9, [("abc", ⟨7, 9⟩)]) :=
  ⟨(claim_C1 [("abc", ⟨7, 9⟩)] none).2.1 (Or.inl rfl),
   (claim_C1 [("abc", ⟨7, 9⟩)] (some "zzz")).2.2.1 "zzz" rfl (by decide) rfl,
   (claim_C1 [("abc", ⟨7, 9⟩)] (some "abc")).2.2.2 "abc" ⟨7, 9⟩ rfl (by decide) rfl⟩

/-- C9 counterexample: the body `"null"` parses as JSON `null`, whose `a`
is not of number type, so the claim requires the 400 `Invalid inputs`
response; but destructuring `null` throws and the surrounding catch
answers 400 `Invalid JSON` instead. -/
theorem claim_C9_cex :
    (handleCalculateApi (some .jnull)).body ≠ [("error", .jstr "Invalid inputs")] ∧
    handleCalculateApi (some .jnull) = ⟨400, [("error", .jstr "Invalid JSON")]⟩ := by
  refine ⟨?_, rfl⟩
  intro h
  rw [show (handleCalculateApi (some .jnull)).body = [("error", .jstr "Invalid JSON")] from rfl] at h
  simp at h

/-- C9 (amended): a body that fails to parse as JSON gets 400
`{"error":"Invalid JSON"}`; a body that parses to `null` gets the same 400
`Invalid JSON` response (its destructuring throws into the same catch as a
parse failure); any other parsed body with both `a` and `b` of number type
gets 200 `{result: a + b}`, and otherwise 400 `{"error":"Invalid inputs"}`
— in particular `{a: "x", b: 2}`. -/
theorem claim_C9 (parsed : Option JsonValue) :
    (parsed = none → handleCalculateApi parsed = ⟨400, [("error", .jstr "Invalid JSON")]⟩) ∧
    (handleCalculateApi (some .jnull) = ⟨400, [("error", .jstr "Invalid JSON")]⟩) ∧
    (∀ v a b, parsed = some v → jsProp v "a" = some (.jnum a) →
      jsProp v "b" = some (.jnum b) →
      handleCalculateApi parsed = ⟨200, [("result", .jnum (a + b))]⟩) ∧
    (∀ v, parsed = some v → v ≠ .jnull →
      (numProp v "a" = none ∨ numProp v "b" = none) →
      handleCalculateApi parsed = ⟨400, [("error", .jstr "Invalid inputs")]⟩) := by
  refine ⟨?_, rfl, ?_, ?_⟩
  · rintro rfl; rfl
  · rintro v a b rfl ha hb
    cases v <;> simp only [jsProp] at ha <;> try exact Option.noConfusion ha
    case jobj fields =>
      simp only [handleCalculateApi, jsProp] at *
      rw [ha, hb]
  · rintro v rfl hnull hnone
    cases v with
    | jnull => exact absurd rfl hnull
    | jobj fields =>
        simp only [handleCalculateApi]
        rcases hnone with hn | hn
        · rcases ha : jsProp (.jobj fields) "a" with _ | va
          · rfl
          · simp only [numProp, ha] at hn
            cases va <;> first | rfl | simp at hn
        · rcases hb : jsProp (.jobj fields) "b" with _ | vb
          · rcases ha : jsProp (.jobj fields) "a" with _ | va
            · rfl
            · cases va <;> rfl
          · simp only [numProp, hb] at hn
            rcases ha : jsProp (.jobj fields) "a" with _ | va
            · rfl
            · cases va <;> cases vb <;> first | rfl | simp at hn
    | jbool b => rfl
    | jnum q => rfl
    | jstr s => rfl
    | jarr elems => rfl

/-- C9 witness: the end-to-end example of the spec, `{a: "x", b: 2}`, gets
400 Invalid inputs, and a well-typed body `{a: 1, b: 2}` gets 200 with
result 3. -/
theorem claim_C9_witness :
    handleCalculateApi (some (.jobj [("a", .jstr "x"), ("b", .jnum 2)])) =
      ⟨400, [("error", .jstr "Invalid inputs")]⟩ ∧
    handleCalculateApi (some (.jobj [("a", .jnum 1), ("b", .jnum 2)])) =
      ⟨200, [("result", .jnum (1 + 2 : ℚ))]⟩ :=
  ⟨(claim_C9 (some (.jobj [("a", .jstr "x"), ("b", .jnum 2)]))).2.2.2
      (.jobj [("a", .jstr "x"), ("b", .jnum 2)]) rfl (by simp) (Or.inl rfl),
   (claim_C9 (some (.jobj [("a", .jnum 1), ("b", .jnum 2)]))).2.2.1
      (.jobj [("a", .jnum 1), ("b", .jnum 2)]) 1 2 rfl rfl rfl⟩

/-- C8 counterexample: the registry is built while `add.html` is missing
(the `add` widget holds the generated fallback); after the file appears on
disk with contents `"X"`, a ReadResource of the `add` template leaves the
registry with `html = "X"` for that widget — the `html` field is not
unchanged by the operation, so the widget record is not immutable. -/
theorem claim_C8_cex :
    ((runOp ctxAddX (widgets ctx0) (.readResourceReq "ui://widget/add.html")).2.head?.map
        Widget.html) = some "X" ∧
    ((widgets ctx0).head?.map Widget.html) ≠ some "X" := by
  exact ⟨rfl, by decide⟩

/-- C8 (amended): every widget field other than `html` is unchanged by
every protocol operation; the registry itself is returned untouched by
ListTools, ListResources, ListResourceTemplates, CallTool, by a
ReadResource miss, and by a ReadResource hit whose re-read throws (the
error propagates before the assignment); a ReadResource hit whose re-read
succeeds rewrites exactly the `html` of the widget whose templateUri
matches, to the freshly read file contents. -/
theorem claim_C8 (ctx : Ctx) (registry : List Widget) :
    (∀ req, ((runOp ctx registry req).2).map stripHtml = registry.map stripHtml) ∧
    ((runOp ctx registry .listToolsReq).2 = registry) ∧
    ((runOp ctx registry .listResourcesReq).2 = registry) ∧
    ((runOp ctx registry .listResourceTemplatesReq).2 = registry) ∧
    (∀ name args, (runOp ctx registry (.callToolReq name args)).2 = registry) ∧
    (∀ uri, widgetsByUri registry uri = none →
      (runOp ctx registry (.readResourceReq uri)).2 = registry) ∧
    (∀ uri w e, widgetsByUri registry uri = some w →
      readWidgetHtml ctx w.id = .error e →
      (runOp ctx registry (.readResourceReq uri)).2 = registry) ∧
    (∀ uri w h, widgetsByUri registry uri = some w →
      readWidgetHtml ctx w.id = .ok h →
      (runOp ctx registry (.readResourceReq uri)).2 =
        registry.map fun x =>
          if x.templateUri = uri then { x with html := h } else x) := by
  refine ⟨?_, rfl, rfl, rfl, fun _ _ => rfl, ?_, ?_, ?_⟩
  · intro req
    cases req with
    | readResourceReq uri =>
        simp only [runOp, readResource]
        cases h : widgetsByUri registry uri with
        | none => rfl
        | some w =>
            dsimp only
            cases hr : readWidgetHtml ctx w.id with
            | error e => rfl
            | ok newHtml => exact map_stripHtml_update uri newHtml registry
    | listToolsReq => rfl
    | listResourcesReq => rfl
    | listResourceTemplatesReq => rfl
    | callToolReq name args => rfl
  · intro uri h
    simp only [runOp, readResource, h]
  · intro uri w e h hr
    simp only [runOp, readResource, h, hr]
  · intro uri w h hw hr
    simp only [runOp, readResource, hw, hr]

/-- C8 witness: a CallTool leaves the concrete startup registry untouched;
the concrete ReadResource of the `add` template rewrites exactly its
`html` field when the file reads back as `"X"`; and with a directory at the
`add.html` path the re-read throws and the registry is untouched. -/
theorem claim_C8_witness :
    (runOp ctx0 (widgets ctx0) (.callToolReq "add" none)).2 = widgets ctx0 ∧
    (runOp ctxAddX (widgets ctx0) (.readResourceReq "ui://widget/add.html")).2 =
      ((widgets ctx0).map fun x =>
        if x.templateUri = "ui://widget/add.html" then { x with html := "X" }
        else x) ∧
    (runOp ctxAddDir (widgets ctx0) (.readResourceReq "ui://widget/add.html")).2 =
      widgets ctx0 :=
  ⟨(claim_C8 ctx0 (widgets ctx0)).2.2.2.2.1 "add" none,
   (claim_C8 ctxAddX (widgets ctx0)).2.2.2.2.2.2.2 "ui://widget/add.html" widgetAdd0
      "X" rfl rfl,
   (claim_C8 ctxAddDir (widgets ctx0)).2.2.2.2.2.2.1 "ui://widget/add.html" widgetAdd0
      (.readFailed "/srv/assets/add.html") rfl rfl⟩

/-- C6 counterexample: with an empty `add.html` on disk, `existsSync` is
true, `readFileSync` returns the empty string, and ReadResource of the
`add` template answers one content entry whose text payload is empty —
the claimed non-emptiness fails; and with a directory at the `add.html`
path the re-read throws and no content entry is returned at all. -/
theorem claim_C6_cex :
    (∃ c, (readResource ctxAddEmpty (widgets ctxAddEmpty) "ui://widget/add.html").1 =
        .ok [c] ∧ c.text = "") ∧
    (readResource ctxAddDir (widgets ctx0) "ui://widget/add.html").1 =
      .error (.htmlReadFailed (.readFailed "/srv/assets/add.html")) :=
  ⟨⟨_, rfl, rfl⟩, rfl⟩

/-- C6 (amended): ReadResource on a uri that is no templateUri of the
registry fails with the UnknownResource error and leaves the registry
alone; on a registered uri the widget HTML is re-read from disk — when the
re-read throws (the html path exists but is no readable file) the error
propagates to the caller, and when it succeeds exactly one content entry is
returned whose mimeType is `text/html+skybridge`, whose text is the freshly
read payload — non-empty except when the on-disk file is present and empty,
the generated shell covering a missing file — and whose descriptor metadata
is exactly the metadata of the ListResources entry of that widget. -/
theorem claim_C6 (ctx : Ctx) (registry : List Widget) (uri : String) :
    (widgetsByUri registry uri = none →
      readResource ctx registry uri = (.error (.unknownResource uri), registry)) ∧
    (∀ w e, widgetsByUri registry uri = some w →
      readWidgetHtml ctx w.id = .error e →
      readResource ctx registry uri = (.error (.htmlReadFailed e), registry)) ∧
    (∀ w h, widgetsByUri registry uri = some w →
      readWidgetHtml ctx w.id = .ok h →
      ∃ c, (readResource ctx registry uri).1 = .ok [c] ∧
        c.uri = w.templateUri ∧
        c.mimeType = "text/html+skybridge" ∧
        c.text = h ∧
        c.meta = (resourceEntryOf ctx w).meta) ∧
    (∀ w h, widgetsByUri registry uri = some w →
      readWidgetHtml ctx w.id = .ok h →
      ctx.fs (pathJoin ctx.assetsDir (w.id ++ ".html")) ≠ some "" →
      h ≠ "") := by
  refine ⟨?_, ?_, ?_, ?_⟩
  · intro h
    simp only [readResource, h]
  · intro w e hw hr
    simp only [readResource, hw, hr]
  · intro w h hw hr
    simp only [readResource, hw, hr]
    exact ⟨_, rfl, rfl, rfl, rfl, rfl⟩
  · intro w h hw hr hne
    exact readWidgetHtml_ok_ne_empty ctx w.id h hr hne

/-- C6 witness: under the concrete empty-assets context an unregistered uri
fails with UnknownResource; a directory at the `add.html` path makes the
re-read throw and the error propagate; and the `add` template returns one
skybridge entry whose payload is the generated shell, which is non-empty. -/
theorem claim_C6_witness :
    readResource ctx0 (widgets ctx0) "ui://widget/zzz" =
      (.error (.unknownResource "ui://widget/zzz"), widgets ctx0) ∧
    readResource ctxAddDir (widgets ctx0) "ui://widget/add.html" =
      (.error (.htmlReadFailed (.readFailed "/srv/assets/add.html")), widgets ctx0) ∧
    (∃ c, (readResource ctx0 (widgets ctx0) "ui://widget/add.html").1 = .ok [c] ∧
      c.uri = "ui://widget/add.html" ∧
      c.mimeType = "text/html+skybridge" ∧
      c.text = widgetHtmlInit ctx0 "add" ∧
      c.meta = (resourceEntryOf ctx0 widgetAdd0).meta) ∧
    widgetHtmlInit ctx0 "add" ≠ "" :=
  ⟨(claim_C6 ctx0 (widgets ctx0) "ui://widget/zzz").1 rfl,
   (claim_C6 ctxAddDir (widgets ctx0) "ui://widget/add.html").2.1 widgetAdd0
      (.readFailed "/srv/assets/add.html") rfl rfl,
   (claim_C6 ctx0 (widgets ctx0) "ui://widget/add.html").2.2.1 widgetAdd0
      (widgetHtmlInit ctx0 "add") rfl rfl,
   (claim_C6 ctx0 (widgets ctx0) "ui://widget/add.html").2.2.2 widgetAdd0
      (widgetHtmlInit ctx0 "add") rfl rfl (fun hp => Option.noConfusion hp)⟩

/-- The zod enum accepts exactly the four operation names. -/
theorem parseOp_eq_some (s : String) (op : Op) : parseOp s = some op ↔ s = opName op := by
  constructor
  · intro h
    unfold parseOp at h
    split at h <;> first
      | exact Option.noConfusion h
      | (injection h with h; subst h; rfl)
  · rintro rfl
    cases op <;> rfl

/-- C5: a CallTool with a name that is not a registered widget id —
exactly the names outside the five registered ids — fails with the
UnknownTool error; for a registered tool the arguments are validated
against the declared schema before any computation: the super-calculator
requires numbers `a`, `b` and an `operation` from the four-value enum, the
basic tools require numbers `a` and `b`, and a parse failure makes the
call fail with the invalid-arguments error. -/
theorem claim_C5 (ctx : Ctx) (name : String) (args : Option JsonValue) :
    (widgetsById (widgets ctx) name = none →
      callTool (widgets ctx) name args = .error (.unknownTool name)) ∧
    (widgetsById (widgets ctx) name = none ↔
      ¬ (name = "add" ∨ name = "subtract" ∨ name = "multiply" ∨ name = "divide" ∨
          name = "super-calculator")) ∧
    (superCalculatorInputParser (args.getD (.jobj [])) = none →
      callTool (widgets ctx) "super-calculator" args = .error .invalidArguments) ∧
    (∀ bn, (bn = "add" ∨ bn = "subtract" ∨ bn = "multiply" ∨ bn = "divide") →
      basicToolInputParser (args.getD (.jobj [])) = none →
      callTool (widgets ctx) bn args = .error .invalidArguments) ∧
    (∀ v a b, basicToolInputParser v = some ⟨a, b⟩ ↔
      jsProp v "a" = some (.jnum a) ∧ jsProp v "b" = some (.jnum b)) ∧
    (∀ v p, superCalculatorInputParser v = some p ↔
      jsProp v "a" = some (.jnum p.a) ∧ jsProp v "b" = some (.jnum p.b) ∧
        jsProp v "operation" = some (.jstr (opName p.operation))) := by
  refine ⟨?_, ?_, ?_, ?_, ?_, ?_⟩
  · intro h
    simp only [callTool, h]
  · constructor
    · intro h hc
      rcases hc with rfl | rfl | rfl | rfl | rfl <;> simp [widgetsById, widgets] at h
    · intro hc
      push_neg at hc
      obtain ⟨n1, n2, n3, n4, n5⟩ := hc
      simp [widgetsById, widgets, Ne.symm n1, Ne.symm n2, Ne.symm n3, Ne.symm n4, Ne.symm n5]
  · intro h
    simp [callTool, widgetsById, widgets, h]
  · rintro bn (rfl | rfl | rfl | rfl) h
    all_goals simp [callTool, widgetsById, widgets, h]
  · intro v a b
    cases v <;> simp only [basicToolInputParser, jsProp]
    case jobj fields =>
      rcases ha : lookupField fields.reverse "a" with _ | va
      · simp
      · rcases hb : lookupField fields.reverse "b" with _ | vb
        · cases va <;> simp
        · cases va <;> cases vb <;> simp [BasicArgs.mk.injEq, and_comm]
    all_goals simp
  · intro v p
    obtain ⟨pa, pb, pop⟩ := p
    cases v <;> simp only [superCalculatorInputParser, jsProp]
    case jobj fields =>
      rcases ha : lookupField fields.reverse "a" with _ | va
      · simp
      · rcases hb : lookupField fields.reverse "b" with _ | vb
        · cases va <;> simp
        · rcases hop : lookupField fields.reverse "operation" with _ | vop
          · cases va <;> cases vb <;> simp
          · cases va <;> try (simp; done)
            case jnum q1 =>
              cases vb <;> try (simp; done)
              case jnum q2 =>
                cases vop <;> try (simp; done)
                case jstr s =>
                  dsimp only
                  rw [Option.map_eq_some']
                  constructor
                  · rintro ⟨op, hs, hmk⟩
                    cases hmk
                    refine ⟨rfl, rfl, ?_⟩
                    rw [(parseOp_eq_some _ _).mp hs]
                  · rintro ⟨h1, h2, h3⟩
                    simp only [Option.some.injEq, JsonValue.jnum.injEq,
                      JsonValue.jstr.injEq] at h1 h2 h3
                    subst h1
                    subst h2
                    exact ⟨pop, (parseOp_eq_some s pop).mpr h3, rfl⟩
    all_goals simp

/-- C5 witness: an unregistered name fails with UnknownTool; the
super-calculator with an empty arguments object and the `add` tool with a
string `a` both fail with the invalid-arguments error. -/
theorem claim_C5_witness :
    callTool (widgets ctx0) "does-not-exist" none =
      .error (.unknownTool "does-not-exist") ∧
    callTool (widgets ctx0) "super-calculator" (some (.jobj [])) =
      .error .invalidArguments ∧
    callTool (widgets ctx0) "add" (some (.jobj [("a", .jstr "x"), ("b", .jnum 2)])) =
      .error .invalidArguments :=
  ⟨(claim_C5 ctx0 "does-not-exist" none).1 rfl,
   (claim_C5 ctx0 "super-calculator" (some (.jobj []))).2.2.1 rfl,
   (claim_C5 ctx0 "add" (some (.jobj [("a", .jstr "x"), ("b", .jnum 2)]))).2.2.2.1
      "add" (Or.inl rfl) rfl⟩

/-- C4: for a `GET /assets/<fileName>` request, a file name containing
`..` is answered 404; a file name whose joined and normalized path does not
remain strictly within the asset root is answered 404; and whenever file
content is served, the served path is the join of the asset root with the
file name, its normalization lies strictly within the asset root, and the
content is the file at that path — no file outside the root is ever
served. -/
theorem claim_C4 (ctx : Ctx) (fileName : String) :
    (strIncludes fileName ".." = true → handleAssetPath ctx fileName = .notFound) ∧
    (strStartsWith (pathNormalize (pathJoin ctx.assetsDir fileName))
        (pathNormalize ctx.assetsDir ++ "/") = false →
      handleAssetPath ctx fileName = .notFound) ∧
    (∀ p content t, handleAssetPath ctx fileName = .served p content t →
      p = pathJoin ctx.assetsDir fileName ∧
      strStartsWith (pathNormalize p) (pathNormalize ctx.assetsDir ++ "/") = true ∧
      ctx.fs p = some content) := by
  refine ⟨?_, ?_, ?_⟩
  · intro h
    rw [handleAssetPath, if_neg]
    rintro ⟨-, h2⟩
    rw [h] at h2
    exact Bool.noConfusion h2
  · intro h
    simp only [handleAssetPath]
    split
    · rw [if_neg]
      rintro ⟨h1, -⟩
      rw [h] at h1
      exact Bool.noConfusion h1
    · rfl
  · intro p content t h
    simp only [handleAssetPath] at h
    split at h
    case isFalse => exact AssetResponse.noConfusion h
    case isTrue hname =>
      split at h
      case isFalse => exact AssetResponse.noConfusion h
      case isTrue hguard =>
        obtain ⟨hstart, -, -⟩ := hguard
        simp only [serveStaticFile] at h
        split at h
        case isFalse => exact AssetResponse.noConfusion h
        case isTrue hex =>
          split at h
          case h_2 => exact AssetResponse.noConfusion h
          case h_1 content' hf =>
            injection h with e1 e2 e3
            subst e1
            subst e2
            exact ⟨rfl, hstart, hf⟩

/-- C4 witness: a `..` traversal name and a name resolving onto the root
itself are both 404, while a real bundle is served from inside the root
with its content and path facts established through the theorem. -/
theorem claim_C4_witness :
    handleAssetPath ctxAssets "../../etc/passwd" = .notFound ∧
    handleAssetPath ctxAssets "." = .notFound ∧
    handleAssetPath ctxAssets "app.js" =
      .served "/srv/assets/app.js" "JS" "application/javascript" ∧
    ("/srv/assets/app.js" = pathJoin ctxAssets.assetsDir "app.js" ∧
      strStartsWith (pathNormalize "/srv/assets/app.js")
        (pathNormalize ctxAssets.assetsDir ++ "/") = true ∧
      ctxAssets.fs "/srv/assets/app.js" = some "JS") :=
  ⟨(claim_C4 ctxAssets "../../etc/passwd").1 rfl,
   (claim_C4 ctxAssets ".").2.1 rfl,
   rfl,
   (claim_C4 ctxAssets "app.js").2.2 "/srv/assets/app.js" "JS" "application/javascript" rfl⟩

/-- C10: the super-calculator switch and the basic-tool switch compute the
same `(result, operationText)` for every operation and inputs, they fail
exactly for divide with `b = 0`, and at CallTool level the two dispatch
paths agree up to the extra `operation` field of the super-calculator
structured payload. -/
theorem claim_C10 (a b : ℚ) (op : Op) :
    superCalcCompute a b op = basicCompute (opName op) a b ∧
    ((∃ e, superCalcCompute a b op = .error e) ↔ op = .divide ∧ b = 0) ∧
    (∀ ctx, (callTool (widgets ctx) "super-calculator"
        (some (.jobj [("a", .jnum a), ("b", .jnum b), ("operation", .jstr (opName op))]))).map
          (fun r => r.structuredContent.filter fun kv => kv.1 ≠ "operation") =
      (callTool (widgets ctx) (opName op)
        (some (.jobj [("a", .jnum a), ("b", .jnum b)]))).map
          (fun r => r.structuredContent)) := by
  refine ⟨by cases op <;> rfl, ?_, ?_⟩
  · cases op with
    | divide => by_cases hb : b = 0 <;> simp [superCalcCompute, hb]
    | add => simp [superCalcCompute]
    | subtract => simp [superCalcCompute]
    | multiply => simp [superCalcCompute]
  · intro ctx
    cases op with
    | add => rfl
    | subtract => rfl
    | multiply => rfl
    | divide =>
        by_cases hb : b = 0
        · subst hb; rfl
        · simp [callTool, widgetsById, widgets, superCalculatorInputParser,
            basicToolInputParser, lookupField, parseOp, superCalcCompute, basicCompute,
            opName, hb, Except.map]

end CalcMcp
